import Mathlib

/-!
Verification of the PerfSpect similarity-analyzer data formatter
(similarity-analyzer/data_formatter/main.py).

The script loads two or more metric reports (xls workbooks or header-CSV
files) into metric-name to value mappings, selects a list of metric names
(explicit, predefined, or union-of-all), and writes a comparison table to a
CSV file.  We embed the script shallowly: each Python function becomes a
Lean function over explicit models of the file system, Python dicts
(association lists preserving first-insertion key order), and the CSV /
workbook contents.  Fatal termination paths (SystemExit, sys.exit,
uncaught exceptions) are modelled by an error type that records the exit
status and whether a diagnostic is printed, reflecting CPython semantics:
SystemExit with a message prints it and exits 1, SystemExit with code None
exits 0 silently, an uncaught exception prints a traceback and exits 1.
A successful run produces the pair (output path, table written); an error
result means the output file is never opened.
-/

set_option autoImplicit false

namespace PerfSpectDF

/-- An exact decimal number mant / 10 ^ exp: the result of Python float()
on a plain decimal literal, kept exact (the script only stores and prints
these values, never computes with them). -/
structure Dec where
  mant : Int
  exp : Nat
deriving DecidableEq, Repr

/-- Strip trailing powers of ten so equal decimals get equal
representations ("1.50" and "1.5" both become 15 / 10 ^ 1). -/
def decNorm : Int → Nat → Dec
  | m, 0 => ⟨m, 0⟩
  | m, Nat.succ e => if m % 10 = 0 then decNorm (m / 10) e else ⟨m, Nat.succ e⟩

/-- Cell values: xlrd sheet cells and Python float results are numbers or
text. -/
inductive Val where
  | num : Dec → Val
  | str : String → Val
deriving DecidableEq, Repr

/-- Fatal termination, with CPython exit semantics attached below. -/
inductive Fatal where
  /-- raise SystemExit("msg"): message printed, exit status 1. -/
  | systemExitMsg : String → Fatal
  /-- raise SystemExit() with code None: nothing printed, exit status 0. -/
  | systemExitNone : Fatal
  /-- print(e) followed by sys.exit(1). -/
  | sysExit1 : String → Fatal
  /-- an uncaught exception: traceback printed, exit status 1. -/
  | uncaught : String → Fatal
deriving DecidableEq, Repr

/-- Process exit status of each fatal path (CPython: SystemExit(None)
exits with status 0, every other modelled path with status 1). -/
def Fatal.exitCode : Fatal → Nat
  | .systemExitNone => 0
  | _ => 1

/-- Whether the fatal path prints a human-readable diagnostic
(SystemExit(None) terminates silently). -/
def Fatal.printsDiagnostic : Fatal → Bool
  | .systemExitNone => false
  | _ => true

/-- A Python dict with string keys: association list in key order, keys
unique (maintained by pyDictInsert). -/
abbrev PyDict := List (String × Val)

/-- Python dict assignment d[k] = v: overwrite in place if the key exists
(key keeps its original position), else append (new keys go last). -/
def pyDictInsert (d : PyDict) (k : String) (v : Val) : PyDict :=
  if d.any (fun p => p.1 == k) then
    d.map (fun p => if p.1 == k then (k, v) else p)
  else
    d ++ [(k, v)]

/-- Python d[k] / `k in d` lookup: the value stored under k, if any. -/
def pyLookup (d : PyDict) (k : String) : Option Val :=
  (d.find? (fun p => p.1 == k)).map (fun p => p.2)

/-- Python d.keys(): key list in insertion order. -/
def pyKeys (d : PyDict) : List String :=
  d.map (fun p => p.1)

/-- One sheet of an xlrd workbook: name plus rows; row 0 is the header.
Each row is (cell 0, cell 1) = (metric name, value), per the script. -/
structure Sheet where
  name : String
  rows : List (String × Val)
deriving DecidableEq, Repr

/-- An xls workbook: its sheets. -/
structure Workbook where
  sheets : List Sheet
deriving DecidableEq, Repr

/-- A header-CSV file as csv.DictReader sees it: the header row (column
names) and the data rows (each a list of field texts). -/
structure CsvFile where
  header : List String
  rows : List (List String)
deriving DecidableEq, Repr

/-- On-disk content of an input file. -/
inductive FileData where
  | csvData : CsvFile → FileData
  | xlsData : Workbook → FileData
deriving DecidableEq, Repr

/-- A file-system entry: path, readability (os.access(path, os.R_OK)),
and content. -/
structure FSEntry where
  path : String
  readable : Bool
  data : FileData
deriving DecidableEq, Repr

/-- The file system: the files that exist. -/
abbrev FS := List FSEntry

/-- Locate a path in the file system. -/
def fsFind (fs : FS) (p : String) : Option FSEntry :=
  fs.find? (fun e => e.path == p)

/-- os.access(p, os.R_OK): the file exists and is readable. -/
def fsAccess (fs : FS) (p : String) : Bool :=
  match fsFind fs p with
  | some e => e.readable
  | none => false

/-- List-of-characters core of pySplit. -/
def splitCharAux (sep : Char) : List Char → List Char → List String
  | [], acc => [String.mk acc.reverse]
  | c :: cs, acc =>
    if c = sep then String.mk acc.reverse :: splitCharAux sep cs []
    else splitCharAux sep cs (c :: acc)

/-- Python str.split with a one-character separator (e.g.
"a,b".split(",") = ["a", "b"], "x".split(",") = ["x"],
"a,".split(",") = ["a", ""]). -/
def pySplit (s : String) (sep : Char) : List String :=
  splitCharAux sep s.data []

/-- Whether s starts with p (Python str.startswith). -/
def strStartsWith (s p : String) : Bool :=
  List.isPrefixOf p.data s.data

/-- Whether s ends with p (Python str.endswith). -/
def strEndsWith (s p : String) : Bool :=
  List.isPrefixOf p.data.reverse s.data.reverse

/-- Numeric value of a digit list (most significant first). -/
def natOfDigits (cs : List Char) : Nat :=
  cs.foldl (fun n c => 10 * n + (c.toNat - 48)) 0

/-- Unsigned decimal body of pyFloat: digits with at most one point, at
least one digit overall ("1", "1.5", "1.", ".5" parse; "." and "" do not). -/
def pyFloatBody (cs : List Char) : Option Dec :=
  match cs.span (fun c => ¬ c = '.') with
  | (ip, []) =>
    if ip.isEmpty then none
    else if ip.all Char.isDigit then some (decNorm (natOfDigits ip) 0) else none
  | (ip, _ :: fp) =>
    if fp.any (fun c => c = '.') then none
    else if ip.isEmpty ∧ fp.isEmpty then none
    else if ip.all Char.isDigit ∧ fp.all Char.isDigit then
      some (decNorm (natOfDigits ip * 10 ^ fp.length + natOfDigits fp) fp.length)
    else none

/-- Python float(str) on the plain decimal forms: optional surrounding
spaces, optional sign, digits with an optional decimal point.  Scientific
notation, underscores, inf and nan are treated as unparseable; none means
float() raises ValueError. -/
def pyFloat (s : String) : Option Dec :=
  match (s.data.dropWhile (fun c => c = ' ')).reverse.dropWhile (fun c => c = ' ') |>.reverse with
  | '-' :: rest => (pyFloatBody rest).map (fun d => ⟨-d.mant, d.exp⟩)
  | '+' :: rest => pyFloatBody rest
  | rest => pyFloatBody rest

/-- Failure modes of a csv.DictReader row field access. -/
inductive RowGetErr where
  | keyError
  | shortRow
deriving DecidableEq, Repr

/-- csv.DictReader row[col]: KeyError when col is not a header column;
when the row is shorter than the header the missing field is the restval
None (reported here as shortRow). -/
def dictReaderGet (header row : List String) (col : String) : Except RowGetErr String :=
  if header.contains col then
    match List.lookup col (header.zip row) with
    | some v => Except.ok v
    | none => Except.error RowGetErr.shortRow
  else Except.error RowGetErr.keyError

/-- Row loop of csv2json: key = rows["metrics"], data[key] =
float(rows["avg"]).  A KeyError (missing header column) is caught by
csv2json and re-raised as SystemExit() — exit status 0, no message.  An
unparseable avg raises ValueError, uncaught — exit status 1.  A row
shorter than the header makes the missing field None and float(None)
raises TypeError; we collapse both short-row cases to that fatal error. -/
def csvRows (header : List String) : List (List String) → PyDict → Except Fatal PyDict
  | [], d => Except.ok d
  | row :: rest, d =>
    match dictReaderGet header row "metrics" with
    | Except.error RowGetErr.keyError => Except.error Fatal.systemExitNone
    | Except.error RowGetErr.shortRow =>
      Except.error (Fatal.uncaught "TypeError: float() argument must be a string or a number")
    | Except.ok key =>
      match dictReaderGet header row "avg" with
      | Except.error RowGetErr.keyError => Except.error Fatal.systemExitNone
      | Except.error RowGetErr.shortRow =>
        Except.error (Fatal.uncaught "TypeError: float() argument must be a string or a number")
      | Except.ok avgStr =>
        match pyFloat avgStr with
        | none => Except.error (Fatal.uncaught ("ValueError: could not convert string to float: " ++ avgStr))
        | some q => csvRows header rest (pyDictInsert d key (Val.num q))

/-- csv2json(filename): readability check (SystemExit with message, exit 1,
when it fails), then the DictReader row loop. -/
def csv2json (fs : FS) (filename : String) : Except Fatal PyDict :=
  match fsFind fs filename with
  | some e =>
    if e.readable then
      match e.data with
      | FileData.csvData c => csvRows c.header c.rows []
      | FileData.xlsData _ =>
        Except.error (Fatal.uncaught "UnicodeDecodeError: cannot decode file as utf-8 text")
    else Except.error (Fatal.systemExitMsg (filename ++ " not accessible"))
  | none => Except.error (Fatal.systemExitMsg (filename ++ " not accessible"))

/-- excel2json(filename, sheet="system view"): readability check, open the
workbook, locate the sheet by name (a missing sheet raises XLRDError,
caught: print(e); sys.exit(1)), then insert metric = row[0], val = row[1]
for every row from index 1 on.  Opening a non-workbook file raises
XLRDError too, with the same caught outcome. -/
def excel2json (fs : FS) (filename : String) (sheet : String := "system view") : Except Fatal PyDict :=
  match fsFind fs filename with
  | some e =>
    if e.readable then
      match e.data with
      | FileData.xlsData wb =>
        match wb.sheets.find? (fun sh => sh.name == sheet) with
        | some sh =>
          Except.ok ((sh.rows.drop 1).foldl (fun d r => pyDictInsert d r.1 r.2) [])
        | none => Except.error (Fatal.sysExit1 ("No sheet named " ++ sheet))
      | FileData.csvData _ =>
        Except.error (Fatal.sysExit1 "Unsupported format, or corrupt file")
    else Except.error (Fatal.systemExitMsg (filename ++ " not accessible"))
  | none => Except.error (Fatal.systemExitMsg (filename ++ " not accessible"))

/-- The predefined-metric test of compare_metrics: the name starts with
"metric_TMA" or is one of the four fixed names. -/
def predefinedPred (m : String) : Bool :=
  strStartsWith m "metric_TMA" ||
  [
    "metric_CPU operating frequency (in GHz)",
    "metric_CPU utilization %",
    "metric_CPU utilization% in kernel mode",
    "metric_CPI"
  ].contains m

/-- Predefined selection of compare_metrics: the first dataset's keys, in
key order, that satisfy predefinedPred. -/
def selectPredefined (d : PyDict) : List String :=
  (pyKeys d).filter predefinedPred

/-- One output data row: the metric name, then per dataset its value under
that key if present, else the text "NA". -/
def buildRow (metric : String) (datalist : List PyDict) : List Val :=
  Val.str metric ::
    datalist.map (fun d =>
      match pyLookup d metric with
      | some v => v
      | none => Val.str "NA")

/-- Shared writer tail of compare_metrics and compare_metrics_all:
invalid_filename(out) raises SystemError (uncaught, exit 1) unless out
ends with ".csv"; otherwise the header row (fields) and one row per
selected metric are written.  The ok payload is the table written. -/
def writeTable (sel : List String) (datalist : List PyDict) (fields : List String)
    (out : String) : Except Fatal (List (List Val)) :=
  if strEndsWith out ".csv" then
    Except.ok ((fields.map Val.str) :: sel.map (fun m => buildRow m datalist))
  else
    Except.error (Fatal.uncaught (out ++ " isn\x27t a csv format!"))

/-- compare_metrics(metriclist, datalist, fields, out): an empty metriclist
is replaced by the predefined selection over datalist[0] (IndexError when
datalist is empty), then the table is written. -/
def compare_metrics (metriclist : List String) (datalist : List PyDict)
    (fields : List String) (out : String) : Except Fatal (List (List Val)) :=
  match metriclist, datalist with
  | [], [] => Except.error (Fatal.uncaught "IndexError: list index out of range")
  | [], d :: rest => writeTable (selectPredefined d) (d :: rest) fields out
  | m :: ms, ds => writeTable (m :: ms) ds fields out

/-- Union of all keys over the datasets, as in compare_metrics_all: allkeys
concatenates every dataset's keys in order; list(set(allkeys)) keeps each
name once in an order Python does not specify — modelled here by dedup,
one admissible enumeration of the set. -/
def unionKeys (datalist : List PyDict) : List String :=
  (datalist.foldl (fun acc d => acc ++ pyKeys d) []).dedup

/-- compare_metrics_all(datalist, fields, out): writes one row for each
distinct key appearing in any dataset. -/
def compare_metrics_all (datalist : List PyDict) (fields : List String)
    (out : String) : Except Fatal (List (List Val)) :=
  writeTable (unionKeys datalist) datalist fields out

/-- Parsed command-line arguments of main. -/
structure Args where
  files : Option String
  metriclist : List String
  output : String
  perfspect : Bool

/-- One step of main's load loop: csv2json under --perfspect, else
excel2json with the default sheet "system view". -/
def readOne (fs : FS) (perfspect : Bool) (filename : String) : Except Fatal PyDict :=
  if perfspect then csv2json fs filename else excel2json fs filename

/-- main's load loop: read every input in order; the first failure aborts
the whole load (no partial dataset list is produced). -/
def loadAll (fs : FS) (perfspect : Bool) : List String → Except Fatal (List PyDict)
  | [] => Except.ok []
  | f :: rest =>
    match readOne fs perfspect f with
    | Except.error e => Except.error e
    | Except.ok d =>
      match loadAll fs perfspect rest with
      | Except.error e => Except.error e
      | Except.ok ds => Except.ok (d :: ds)

/-- main(): requires a non-empty --files value (else SystemError, uncaught,
exit 1), splits it on ",", loads every file (fields = "Metric" followed by
the filenames), and dispatches: non-empty metriclist goes to
compare_metrics (the sentinel ["d"] is replaced by the empty list, meaning
predefined), an absent metriclist goes to compare_metrics_all.  The ok
payload is (output path, table written); an error means the output file is
never opened. -/
def runMain (fs : FS) (args : Args) : Except Fatal (String × List (List Val)) :=
  match args.files with
  | none => Except.error (Fatal.uncaught "-f or --files is a required flag")
  | some s =>
    if s = "" then Except.error (Fatal.uncaught "-f or --files is a required flag")
    else
      match loadAll fs args.perfspect (pySplit s ',') with
      | Except.error e => Except.error e
      | Except.ok dl =>
        match (if args.metriclist.isEmpty then
                 compare_metrics_all dl ("Metric" :: pySplit s ',') args.output
               else
                 compare_metrics (if args.metriclist == ["d"] then [] else args.metriclist)
                   dl ("Metric" :: pySplit s ',') args.output) with
        | Except.error e => Except.error e
        | Except.ok table => Except.ok (args.output, table)

/-- The metric list main ends up emitting, as a function of the parsed
arguments and the loaded datasets (mirrors main's dispatch plus the
selection steps inside the two compare functions). -/
def selectedMetrics (args : Args) (dl : List PyDict) : List String :=
  if args.metriclist.isEmpty then unionKeys dl
  else if args.metriclist == ["d"] then selectPredefined (dl.headD [])
  else args.metriclist

/-- Name cell of an output data row. -/
def rowName (r : List Val) : String :=
  match r with
  | Val.str m :: _ => m
  | _ => ""

/-- Names of the data rows of a table (everything after the header row). -/
def dataRowNames (t : List (List Val)) : List String :=
  (t.drop 1).map rowName

/-- Last value stored under key k by a left-to-right sequence of
(key, value) insertions. -/
def lastHit (l : List (String × Val)) (k : String) : Option Val :=
  match l with
  | [] => none
  | p :: rest =>
    match lastHit rest k with
    | some v => some v
    | none => if p.1 == k then some p.2 else none

/-- The (key, value) pair a DictReader row contributes in csv2json, when
every field access and the float coercion succeed. -/
def rowKV (header : List String) (row : List String) : Option (String × Val) :=
  match dictReaderGet header row "metrics", dictReaderGet header row "avg" with
  | Except.ok k, Except.ok a =>
    match pyFloat a with
    | some q => some (k, Val.num q)
    | none => none
  | _, _ => none

/-! Concrete fixtures used to instantiate the theorems below: two valid
header-CSV inputs and the datasets and tables the script derives from
them. -/

/-- Two readable, well-formed header-CSV input files. -/
def fsW : FS := [
  ⟨"a.csv", true, FileData.csvData ⟨["metrics", "avg"], [["metric_CPI", "1.5"]]⟩⟩,
  ⟨"b.csv", true, FileData.csvData ⟨["metrics", "avg"],
    [["metric_CPI", "2.0"], ["metric_TMA_Frontend", "0.3"]]⟩⟩]

/-- A run over fsW with an explicit metric list in --perfspect mode. -/
def argsW : Args := ⟨some "a.csv,b.csv", ["metric_CPI", "metric_TMA_Frontend"], "out.csv", true⟩

/-- The datasets csv2json produces from fsW. -/
def dlW : List PyDict := [[("metric_CPI", Val.num ⟨15, 1⟩)],
  [("metric_CPI", Val.num ⟨2, 0⟩), ("metric_TMA_Frontend", Val.num ⟨3, 1⟩)]]

/-- The table the argsW run writes. -/
def tW : List (List Val) :=
  [[Val.str "Metric", Val.str "a.csv", Val.str "b.csv"],
   [Val.str "metric_CPI", Val.num ⟨15, 1⟩, Val.num ⟨2, 0⟩],
   [Val.str "metric_TMA_Frontend", Val.str "NA", Val.num ⟨3, 1⟩]]

/-- A first dataset for the predefined-mode fixture: one basic metric, one
non-matching metric, one TMA metric. -/
def dC2 : PyDict := [("metric_CPI", Val.num ⟨15, 1⟩), ("metric_other", Val.str "x"),
  ("metric_TMA_Backend", Val.num ⟨1, 0⟩)]

/-- The table of the predefined-mode run over dC2 and an empty second
dataset (identical when the second dataset holds extra TMA metrics). -/
def tC2 : List (List Val) :=
  [[Val.str "Metric", Val.str "a", Val.str "b"],
   [Val.str "metric_CPI", Val.num ⟨15, 1⟩, Val.str "NA"],
   [Val.str "metric_TMA_Backend", Val.num ⟨1, 0⟩, Val.str "NA"]]

/-- The union-mode table over dlW. -/
def tU : List (List Val) :=
  [[Val.str "Metric", Val.str "a.csv", Val.str "b.csv"],
   [Val.str "metric_CPI", Val.num ⟨15, 1⟩, Val.num ⟨2, 0⟩],
   [Val.str "metric_TMA_Frontend", Val.str "NA", Val.num ⟨3, 1⟩]]

/-- The explicit-mode table over dlW for the list ["metric_CPI", "ghost"],
where "ghost" matches no dataset and gets an all-NA row. -/
def tX : List (List Val) :=
  [[Val.str "Metric", Val.str "a.csv", Val.str "b.csv"],
   [Val.str "metric_CPI", Val.num ⟨15, 1⟩, Val.num ⟨2, 0⟩],
   [Val.str "ghost", Val.str "NA", Val.str "NA"]]

/-- A header-CSV file whose header lacks the metrics column. -/
def fsC7 : FS := [⟨"a.csv", true, FileData.csvData ⟨["name", "avg"], [["m1", "1.0"]]⟩⟩]

/-- A file system where a.csv does not exist but b.csv is readable and
well-formed. -/
def fs8 : FS := [⟨"b.csv", true, FileData.csvData ⟨["metrics", "avg"], [["metric_CPI", "2.0"]]⟩⟩]

/-- A run naming the missing a.csv first and the valid b.csv second. -/
def args8 : Args := ⟨some "a.csv,b.csv", [], "out.csv", true⟩

/-- A file system with a single readable, well-formed input. -/
def fs9 : FS := [⟨"single.csv", true, FileData.csvData ⟨["metrics", "avg"], [["metric_CPI", "1.5"]]⟩⟩]

/-- A run over the single input file. -/
def args9 : Args := ⟨some "single.csv", [], "out.csv", true⟩

/-- The two-column table the single-file run writes. -/
def t9 : List (List Val) :=
  [[Val.str "Metric", Val.str "single.csv"],
   [Val.str "metric_CPI", Val.num ⟨15, 1⟩]]

/-- A header-CSV file with two rows sharing the metrics value. -/
def c10File : CsvFile := ⟨["metrics", "avg"], [["metric_CPI", "1.0"], ["metric_CPI", "2.5"]]⟩

/-- The file system holding c10File. -/
def fs10 : FS := [⟨"dup.csv", true, FileData.csvData c10File⟩]

/-! General lemmas about the embedded operations. -/

/-- Every output data row has one name cell plus one cell per dataset. -/
theorem buildRow_length (m : String) (dl : List PyDict) :
    (buildRow m dl).length = 1 + dl.length := by
  simp [buildRow]
  omega

/-- The name cell of a built row is the metric it was built for. -/
theorem rowName_buildRow (m : String) (dl : List PyDict) :
    rowName (buildRow m dl) = m := rfl

/-- A successful writeTable means the extension check passed and the table
is the header row followed by one built row per selected metric. -/
theorem writeTable_ok (sel : List String) (dl : List PyDict) (fields : List String)
    (out : String) (t : List (List Val))
    (h : writeTable sel dl fields out = Except.ok t) :
    strEndsWith out ".csv" = true ∧
      t = (fields.map Val.str) :: sel.map (fun m => buildRow m dl) := by
  by_cases hext : strEndsWith out ".csv" = true
  · refine ⟨hext, ?_⟩
    rw [writeTable, if_pos hext] at h
    exact (Except.ok.inj h).symm
  · rw [writeTable, if_neg hext] at h
    exact absurd h (by simp)

/-- Unfolding compare_metrics in predefined mode over a non-empty dataset
list. -/
theorem compare_metrics_nil_cons (d : PyDict) (rest : List PyDict)
    (fields : List String) (out : String) :
    compare_metrics [] (d :: rest) fields out =
      writeTable (selectPredefined d) (d :: rest) fields out := rfl

/-- Unfolding compare_metrics in explicit mode. -/
theorem compare_metrics_cons (m : String) (ms : List String) (dl : List PyDict)
    (fields : List String) (out : String) :
    compare_metrics (m :: ms) dl fields out = writeTable (m :: ms) dl fields out := rfl

/-- Unfolding compare_metrics_all. -/
theorem compare_metrics_all_eq (dl : List PyDict) (fields : List String) (out : String) :
    compare_metrics_all dl fields out = writeTable (unionKeys dl) dl fields out := rfl

/-- The data-row names of a written table are exactly the selected list. -/
theorem dataRowNames_table (fields sel : List String) (dl : List PyDict) :
    dataRowNames ((fields.map Val.str) :: sel.map (fun m => buildRow m dl)) = sel := by
  have h : (rowName ∘ fun m => buildRow m dl) = id := funext fun m => rfl
  simp [dataRowNames, List.map_map, h]

/-- A successful load produces one dataset per input filename. -/
theorem loadAll_length (fs : FS) (p : Bool) :
    ∀ (l : List String) (dl : List PyDict),
      loadAll fs p l = Except.ok dl → dl.length = l.length := by
  intro l
  induction l with
  | nil =>
    intro dl h
    simp [loadAll] at h
    simp [← h]
  | cons f rest ih =>
    intro dl h
    unfold loadAll at h
    split at h
    · exact absurd h (by simp)
    · split at h
      · exact absurd h (by simp)
      · rename_i d _ ds hrest
        have := Except.ok.inj h
        rw [← this]
        simp [ih ds hrest]

/-- If any filename in the list fails its reader, the whole load errors:
no partial dataset list is produced. -/
theorem loadAll_error_of_mem (fs : FS) (p : Bool) :
    ∀ (l : List String) (f : String) (e0 : Fatal),
      f ∈ l → readOne fs p f = Except.error e0 →
      ∃ e, loadAll fs p l = Except.error e := by
  intro l
  induction l with
  | nil => simp
  | cons g rest ih =>
    intro f e0 hmem hfail
    cases hg : readOne fs p g with
    | error e =>
      refine ⟨e, ?_⟩
      unfold loadAll
      rw [hg]
    | ok d =>
      rcases List.mem_cons.mp hmem with hfg | hfr
      · rw [← hfg] at hg
        rw [hg] at hfail
        exact absurd hfail (by simp)
      · obtain ⟨e, he⟩ := ih f e0 hfr hfail
        refine ⟨e, ?_⟩
        unfold loadAll
        rw [hg, he]

/-- Lookup distributes over a cons as a conditional on the head key. -/
theorem pyLookup_cons (p : String × Val) (d : PyDict) (k : String) :
    pyLookup (p :: d) k = if p.1 == k then some p.2 else pyLookup d k := by
  cases h : (p.1 == k) <;> simp [pyLookup, List.find?, h]

/-- Lookup in a dict whose key-k entries were overwritten in place. -/
theorem pyLookup_map_update (k k' : String) (v : Val) :
    ∀ d : PyDict,
      pyLookup (d.map (fun p => if p.1 == k then (k, v) else p)) k' =
        if k' = k then (if d.any (fun p => p.1 == k) then some v else none)
        else pyLookup d k' := by
  intro d
  induction d with
  | nil => by_cases h2 : k' = k <;> simp [pyLookup, h2]
  | cons p rest ih =>
    rw [List.map_cons, pyLookup_cons]
    by_cases h1 : (p.1 == k) = true
    · rw [if_pos h1]
      by_cases h2 : k' = k
      · subst h2
        rw [if_pos (by simp : (((k', v) : String × Val).1 == k') = true), if_pos rfl,
          if_pos (by simp [List.any_cons, h1])]
      · have hh : (((k, v) : String × Val).1 == k') = false :=
          beq_eq_false_iff_ne.mpr (fun he => h2 he.symm)
        have hp : (p.1 == k') = false := by
          rw [eq_of_beq h1]
          exact hh
        rw [if_neg (by simp [hh]), if_neg h2, pyLookup_cons, if_neg (by simp [hp]), ih, if_neg h2]
    · have h1f : (p.1 == k) = false := Bool.eq_false_iff.mpr h1
      rw [if_neg h1]
      by_cases h2 : k' = k
      · subst h2
        have hp : (p.1 == k') = false := h1f
        rw [if_neg (by simp [hp]), if_pos rfl, ih, if_pos rfl, List.any_cons, hp, Bool.false_or]
      · by_cases h4 : (p.1 == k') = true
        · rw [if_pos h4, if_neg h2, pyLookup_cons, if_pos h4]
        · rw [if_neg h4, if_neg h2, pyLookup_cons, if_neg h4, ih, if_neg h2]

/-- Lookup after appending a fresh key at the end of a dict. -/
theorem pyLookup_append_single (k k' : String) (v : Val) :
    ∀ d : PyDict, d.any (fun p => p.1 == k) = false →
      pyLookup (d ++ [(k, v)]) k' = if k' = k then some v else pyLookup d k' := by
  intro d
  induction d with
  | nil =>
    intro _
    by_cases h2 : k' = k
    · subst h2
      rw [List.nil_append, pyLookup_cons, if_pos (by simp), if_pos rfl]
    · have hh : ((k == k') = false) := beq_eq_false_iff_ne.mpr (fun he => h2 he.symm)
      rw [List.nil_append, pyLookup_cons, if_neg (by simp [hh]), if_neg h2]
  | cons p rest ih =>
    intro hany
    rw [List.any_cons] at hany
    obtain ⟨hpk, hrest⟩ := Bool.or_eq_false_iff.mp hany
    rw [List.cons_append, pyLookup_cons, pyLookup_cons]
    by_cases h4 : (p.1 == k') = true
    · have h2 : ¬ k' = k := by
        intro he
        rw [he] at h4
        rw [hpk] at h4
        exact absurd h4 (by simp)
      rw [if_pos h4, if_neg h2, if_pos h4]
    · rw [if_neg h4, ih hrest]
      by_cases h2 : k' = k <;> simp [h2, h4]

/-- Python dict assignment then lookup: the inserted key maps to the new
value, every other key is untouched. -/
theorem pyLookup_insert (d : PyDict) (k k' : String) (v : Val) :
    pyLookup (pyDictInsert d k v) k' = if k' = k then some v else pyLookup d k' := by
  unfold pyDictInsert
  by_cases hany : d.any (fun p => p.1 == k) = true
  · rw [if_pos hany, pyLookup_map_update]
    by_cases h2 : k' = k <;> simp [h2, hany]
  · have hf : d.any (fun p => p.1 == k) = false := Bool.eq_false_iff.mpr hany
    rw [if_neg hany]
    exact pyLookup_append_single k k' v d hf

/-- A lookup succeeds exactly when the name is one of the dict's keys. -/
theorem pyLookup_isSome_iff (d : PyDict) (m : String) :
    (pyLookup d m).isSome = true ↔ m ∈ pyKeys d := by
  simp [pyLookup, pyKeys, List.find?_isSome, List.mem_map]

/-- Membership in the running key union built by compare_metrics_all. -/
theorem mem_foldl_append_keys (m : String) :
    ∀ (dl : List PyDict) (acc : List String),
      m ∈ dl.foldl (fun a d => a ++ pyKeys d) acc ↔
        m ∈ acc ∨ ∃ d ∈ dl, m ∈ pyKeys d := by
  intro dl
  induction dl with
  | nil => simp
  | cons d rest ih =>
    intro acc
    rw [List.foldl_cons, ih]
    simp [List.mem_append, or_assoc]

/-- Membership in the union-mode selection: the name is a key of at least
one dataset. -/
theorem mem_unionKeys (m : String) (dl : List PyDict) :
    m ∈ unionKeys dl ↔ ∃ d ∈ dl, m ∈ pyKeys d := by
  rw [unionKeys, List.mem_dedup, mem_foldl_append_keys]
  simp

/-- After a successful csvRows pass, a key holds the value of the last row
that contributed it, and keys no row contributed keep their prior value. -/
theorem csvRows_lookup (header : List String) :
    ∀ (rows : List (List String)) (d d' : PyDict),
      csvRows header rows d = Except.ok d' →
      ∀ k, pyLookup d' k =
        match lastHit (rows.filterMap (rowKV header)) k with
        | some v => some v
        | none => pyLookup d k := by
  intro rows
  induction rows with
  | nil =>
    intro d d' h k
    have hd : d' = d := (Except.ok.inj h).symm
    simp [hd, List.filterMap_nil, lastHit]
  | cons row rest ih =>
    intro d d' h k
    unfold csvRows at h
    split at h
    · exact absurd h (by simp)
    · exact absurd h (by simp)
    · rename_i key hm
      split at h
      · exact absurd h (by simp)
      · exact absurd h (by simp)
      · rename_i avgStr ha
        split at h
        · exact absurd h (by simp)
        · rename_i q hq
          have hrkv : rowKV header row = some (key, Val.num q) := by
            unfold rowKV
            rw [hm, ha]
            show (match pyFloat avgStr with
              | some q2 => some (key, Val.num q2)
              | none => none) = some (key, Val.num q)
            rw [hq]
          rw [List.filterMap_cons, hrkv]
          have hih := ih (pyDictInsert d key (Val.num q)) d' h k
          rw [hih]
          cases hl : lastHit (rest.filterMap (rowKV header)) k with
          | some v => simp [lastHit, hl]
          | none =>
            simp only [lastHit, hl, pyLookup_insert]
            by_cases hk : k = key
            · subst hk
              simp
            · have hkb : (key == k) = false := beq_eq_false_iff_ne.mpr (fun he => hk he.symm)
              simp [hk, hkb]

/-- A successful run of main determines everything: the flag was present
and non-empty, every input loaded (one dataset per filename), the output
extension check passed, and the table written is the header row followed
by one built row per selected metric. -/
theorem runMain_ok_characterize (fs : FS) (args : Args) (o : String) (t : List (List Val))
    (h : runMain fs args = Except.ok (o, t)) :
    ∃ s dl,
      args.files = some s ∧ ¬ s = "" ∧
      loadAll fs args.perfspect (pySplit s ',') = Except.ok dl ∧
      dl.length = (pySplit s ',').length ∧
      o = args.output ∧
      strEndsWith args.output ".csv" = true ∧
      t = (("Metric" :: pySplit s ',').map Val.str)
        :: (selectedMetrics args dl).map (fun m => buildRow m dl) := by
  unfold runMain at h
  split at h
  · exact absurd h (by simp)
  · rename_i s hfs
    split at h
    · exact absurd h (by simp)
    · rename_i hs
      split at h
      · exact absurd h (by simp)
      · rename_i dl hload
        split at h
        · exact absurd h (by simp)
        · rename_i table hcomp
          injection h with hpair
          injection hpair with h1 h2
          subst h2
          refine ⟨s, dl, hfs, hs, hload, loadAll_length fs args.perfspect _ dl hload,
            h1.symm, ?_⟩
          by_cases hml : args.metriclist.isEmpty
          · rw [if_pos hml, compare_metrics_all_eq] at hcomp
            obtain ⟨hext, ht⟩ := writeTable_ok _ _ _ _ _ hcomp
            refine ⟨hext, ?_⟩
            rw [ht]
            simp [selectedMetrics, hml]
          · rw [if_neg hml] at hcomp
            by_cases hd : (args.metriclist == ["d"]) = true
            · rw [if_pos hd] at hcomp
              cases dl with
              | nil => exact absurd hcomp (by simp [compare_metrics])
              | cons d rest =>
                rw [compare_metrics_nil_cons] at hcomp
                obtain ⟨hext, ht⟩ := writeTable_ok _ _ _ _ _ hcomp
                refine ⟨hext, ?_⟩
                rw [ht]
                simp [selectedMetrics, hml, hd]
            · rw [if_neg hd] at hcomp
              cases hml2 : args.metriclist with
              | nil =>
                rw [hml2] at hml
                exact absurd rfl hml
              | cons m ms =>
                rw [hml2, compare_metrics_cons] at hcomp
                obtain ⟨hext, ht⟩ := writeTable_ok _ _ _ _ _ hcomp
                refine ⟨hext, ?_⟩
                rw [ht]
                rw [hml2] at hd
                simp [selectedMetrics, hml2, hd]

/-- The data cell at column i+1 of a built row, as a function of dataset
i alone. -/
theorem buildRow_cell (m : String) (dl : List PyDict) (i : Nat) (hi : i < dl.length) :
    (buildRow m dl)[i + 1]? =
      some (match pyLookup dl[i] m with
            | some v => v
            | none => Val.str "NA") := by
  rw [buildRow]
  have hgen : ∀ (f : PyDict → Val) (x : Val), (x :: dl.map f)[i + 1]? = some (f dl[i]) := by
    intro f x
    rw [List.getElem?_cons_succ, List.getElem?_map f dl i, List.getElem?_eq_getElem hi]
    rfl
  exact hgen _ _

/-! The claims. -/

/-- C1: for every run over valid inputs the emitted table has one data row
per selected metric name, in the order of the selected list, and every row
— header and data alike — has exactly 1 + N cells, where N is the number
of input files; the width is identical across all rows. -/
theorem c1_table_shape (fs : FS) (args : Args) (s : String) (dl : List PyDict)
    (o : String) (t : List (List Val))
    (hf : args.files = some s)
    (hl : loadAll fs args.perfspect (pySplit s ',') = Except.ok dl)
    (h : runMain fs args = Except.ok (o, t)) :
    t = (("Metric" :: pySplit s ',').map Val.str)
      :: (selectedMetrics args dl).map (fun m => buildRow m dl) ∧
    t.length = 1 + (selectedMetrics args dl).length ∧
    ∀ row ∈ t, row.length = 1 + (pySplit s ',').length := by
  obtain ⟨s2, dl2, hf2, hs2, hl2, hlen, ho, hext, ht⟩ := runMain_ok_characterize fs args o t h
  rw [hf] at hf2
  injection hf2 with hseq
  subst hseq
  rw [hl] at hl2
  have hdl := Except.ok.inj hl2
  subst hdl
  refine ⟨ht, ?_, ?_⟩
  · rw [ht]
    simp only [List.length_cons, List.length_map]
    omega
  · intro row hrow
    rw [ht] at hrow
    rcases List.mem_cons.mp hrow with h1 | h1
    · rw [h1]
      simp only [List.length_map, List.length_cons]
      omega
    · obtain ⟨m, hm, hrow2⟩ := List.mem_map.mp h1
      rw [← hrow2, buildRow_length, hlen]

/-- Witness: the two-file run over fsW instantiates c1_table_shape. -/
theorem c1_table_shape_witness :
    tW = (("Metric" :: pySplit "a.csv,b.csv" ',').map Val.str)
      :: (selectedMetrics argsW dlW).map (fun m => buildRow m dlW) ∧
    tW.length = 1 + (selectedMetrics argsW dlW).length := by
  have h := c1_table_shape fsW argsW "a.csv,b.csv" dlW "out.csv" tW rfl rfl rfl
  exact ⟨h.1, h.2.1⟩

/-- C2: with an empty metriclist, compare_metrics selects exactly the
first dataset's keys that start with "metric_TMA" or equal one of the four
fixed names, in the first dataset's key order; the selection depends only
on the first dataset (identical for any tail datasets), so metrics
appearing only in datasets 2..N are never added. -/
theorem c2_predefined_selection (d : PyDict) (rest rest2 : List PyDict)
    (fields fields2 : List String) (out out2 : String) (t t2 : List (List Val))
    (h : compare_metrics [] (d :: rest) fields out = Except.ok t)
    (h2 : compare_metrics [] (d :: rest2) fields2 out2 = Except.ok t2) :
    dataRowNames t = (pyKeys d).filter predefinedPred ∧
    dataRowNames t2 = dataRowNames t ∧
    ∀ m ∈ dataRowNames t, m ∈ pyKeys d := by
  rw [compare_metrics_nil_cons] at h h2
  obtain ⟨_, ht⟩ := writeTable_ok _ _ _ _ _ h
  obtain ⟨_, ht2⟩ := writeTable_ok _ _ _ _ _ h2
  rw [ht, ht2, dataRowNames_table, dataRowNames_table]
  refine ⟨rfl, rfl, ?_⟩
  intro m hm
  exact List.mem_of_mem_filter hm

/-- Witness: predefined selection over dC2 with two different second
datasets instantiates c2_predefined_selection. -/
theorem c2_predefined_selection_witness :
    dataRowNames tC2 = (pyKeys dC2).filter predefinedPred ∧
    "metric_CPI" ∈ pyKeys dC2 := by
  have h := c2_predefined_selection dC2 [([] : PyDict)]
    [[("metric_TMA_Extra", Val.num ⟨1, 0⟩)]] ["Metric", "a", "b"] ["Metric", "a", "b"]
    "o.csv" "o.csv" tC2 tC2 rfl rfl
  exact ⟨h.1, h.2.2 "metric_CPI" (by decide)⟩

/-- C3: in union mode every metric name present in at least one dataset
appears exactly once among the emitted data-row names (the name list has
no duplicates), and no emitted name is absent from all datasets. -/
theorem c3_union_names (dl : List PyDict) (fields : List String) (out : String)
    (t : List (List Val))
    (h : compare_metrics_all dl fields out = Except.ok t) :
    (dataRowNames t).Nodup ∧
    ∀ m, m ∈ dataRowNames t ↔ ∃ d ∈ dl, (pyLookup d m).isSome = true := by
  rw [compare_metrics_all_eq] at h
  obtain ⟨_, ht⟩ := writeTable_ok _ _ _ _ _ h
  rw [ht, dataRowNames_table]
  refine ⟨by rw [unionKeys]; exact List.nodup_dedup _, ?_⟩
  intro m
  rw [mem_unionKeys]
  constructor
  · rintro ⟨d, hd, hm⟩
    exact ⟨d, hd, (pyLookup_isSome_iff d m).mpr hm⟩
  · rintro ⟨d, hd, hm⟩
    exact ⟨d, hd, (pyLookup_isSome_iff d m).mp hm⟩

/-- Witness: the union-mode run over dlW instantiates c3_union_names. -/
theorem c3_union_names_witness :
    (dataRowNames tU).Nodup ∧
    ("metric_TMA_Frontend" ∈ dataRowNames tU ↔
      ∃ d ∈ dlW, (pyLookup d "metric_TMA_Frontend").isSome = true) := by
  have h := c3_union_names dlW ["Metric", "a.csv", "b.csv"] "out.csv" tU rfl
  exact ⟨h.1, h.2 "metric_TMA_Frontend"⟩

/-- C4: with a non-empty metriclist the emitted data rows are exactly the
caller's list, verbatim and in the caller's order, including names absent
from every dataset, whose rows are the name followed by "NA" in every
data column. -/
theorem c4_explicit_mode (m0 : String) (ms : List String) (dl : List PyDict)
    (fields : List String) (out : String) (t : List (List Val))
    (h : compare_metrics (m0 :: ms) dl fields out = Except.ok t) :
    dataRowNames t = m0 :: ms ∧
    t.drop 1 = (m0 :: ms).map (fun m => buildRow m dl) ∧
    ∀ m ∈ m0 :: ms, (∀ d ∈ dl, pyLookup d m = none) →
      buildRow m dl = Val.str m :: List.replicate dl.length (Val.str "NA") := by
  rw [compare_metrics_cons] at h
  obtain ⟨_, ht⟩ := writeTable_ok _ _ _ _ _ h
  refine ⟨by rw [ht, dataRowNames_table], by rw [ht]; rfl, ?_⟩
  intro m hm habs
  unfold buildRow
  congr 1
  rw [List.eq_replicate_iff]
  constructor
  · simp
  · intro b hb
    obtain ⟨d, hd, hbe⟩ := List.mem_map.mp hb
    rw [← hbe, habs d hd]

/-- Witness: the explicit list ["metric_CPI", "ghost"] over dlW
instantiates c4_explicit_mode; "ghost" matches nothing and gets an
all-NA row. -/
theorem c4_explicit_mode_witness :
    dataRowNames tX = ["metric_CPI", "ghost"] ∧
    buildRow "ghost" dlW = Val.str "ghost" :: List.replicate dlW.length (Val.str "NA") := by
  have h := c4_explicit_mode "metric_CPI" ["ghost"] dlW ["Metric", "a.csv", "b.csv"]
    "out.csv" tX rfl
  exact ⟨h.1, h.2.2 "ghost" (by decide) (by decide)⟩

/-- C5: every data row either function emits is a built row, and in a
built row the cell at column i+1 equals dataset i's stored value when the
metric is one of its keys and the text "NA" otherwise; each cell depends
only on its own dataset, so absence in one dataset leaves the other
columns at their stored values. -/
theorem c5_cell_policy (ml : List String) (dl : List PyDict) (fields fields2 : List String)
    (out out2 : String) (t u : List (List Val))
    (h : compare_metrics ml dl fields out = Except.ok t)
    (h2 : compare_metrics_all dl fields2 out2 = Except.ok u) :
    (∀ row, row ∈ t.drop 1 ∨ row ∈ u.drop 1 → ∃ m, row = buildRow m dl) ∧
    ∀ (m : String) (i : Nat) (hi : i < dl.length),
      (∀ v, pyLookup dl[i] m = some v → (buildRow m dl)[i + 1]? = some v) ∧
      (pyLookup dl[i] m = none → (buildRow m dl)[i + 1]? = some (Val.str "NA")) := by
  constructor
  · intro row hrow
    rcases hrow with hr | hr
    · cases ml with
      | nil =>
        cases dl with
        | nil => exact absurd h (by simp [compare_metrics])
        | cons d rest =>
          rw [compare_metrics_nil_cons] at h
          obtain ⟨_, ht⟩ := writeTable_ok _ _ _ _ _ h
          rw [ht] at hr
          obtain ⟨m, _, hrow2⟩ := List.mem_map.mp
            (show row ∈ (selectPredefined d).map (fun m => buildRow m (d :: rest)) from hr)
          exact ⟨m, hrow2.symm⟩
      | cons m0 ms =>
        rw [compare_metrics_cons] at h
        obtain ⟨_, ht⟩ := writeTable_ok _ _ _ _ _ h
        rw [ht] at hr
        obtain ⟨m, _, hrow2⟩ := List.mem_map.mp
          (show row ∈ (m0 :: ms).map (fun m => buildRow m dl) from hr)
        exact ⟨m, hrow2.symm⟩
    · rw [compare_metrics_all_eq] at h2
      obtain ⟨_, hu⟩ := writeTable_ok _ _ _ _ _ h2
      rw [hu] at hr
      obtain ⟨m, _, hrow2⟩ := List.mem_map.mp
        (show row ∈ (unionKeys dl).map (fun m => buildRow m dl) from hr)
      exact ⟨m, hrow2.symm⟩
  · intro m i hi
    constructor
    · intro v hv
      rw [buildRow_cell m dl i hi, hv]
    · intro hv
      rw [buildRow_cell m dl i hi, hv]

/-- Witness: in the dlW tables, metric_TMA_Frontend is absent from
dataset 0 (cell "NA") while dataset 1 keeps its stored value. -/
theorem c5_cell_policy_witness :
    (buildRow "metric_TMA_Frontend" dlW)[1]? = some (Val.str "NA") ∧
    (buildRow "metric_TMA_Frontend" dlW)[2]? = some (Val.num ⟨3, 1⟩) := by
  have h := c5_cell_policy ["metric_CPI", "metric_TMA_Frontend"] dlW
    ["Metric", "a.csv", "b.csv"] ["Metric", "a.csv", "b.csv"] "out.csv" "out.csv"
    tW tU rfl rfl
  exact ⟨(h.2 "metric_TMA_Frontend" 0 (by decide)).2 (by decide),
    (h.2 "metric_TMA_Frontend" 1 (by decide)).1 (Val.num ⟨3, 1⟩) (by decide)⟩

/-- C6: a destination that does not end in ".csv" makes both writer paths
fail with the invalid-extension SystemError before anything is written
(the error result carries no table, and no run can reach the ok state
that models a written file). -/
theorem c6_invalid_out (ml : List String) (dl : List PyDict) (fields fields2 : List String)
    (out : String)
    (hout : strEndsWith out ".csv" = false) (hne : ml ≠ [] ∨ dl ≠ []) :
    compare_metrics ml dl fields out =
      Except.error (Fatal.uncaught (out ++ " isn\x27t a csv format!")) ∧
    compare_metrics_all dl fields2 out =
      Except.error (Fatal.uncaught (out ++ " isn\x27t a csv format!")) ∧
    ∀ (fs : FS) (args : Args) (o : String) (t : List (List Val)),
      args.output = out → runMain fs args ≠ Except.ok (o, t) := by
  have hwt : ∀ (sel : List String) (dlx : List PyDict) (f : List String),
      writeTable sel dlx f out =
        Except.error (Fatal.uncaught (out ++ " isn\x27t a csv format!")) := by
    intro sel dlx f
    rw [writeTable, if_neg (by simp [hout])]
  refine ⟨?_, ?_, ?_⟩
  · cases ml with
    | nil =>
      cases dl with
      | nil =>
        rcases hne with hc | hc <;> exact absurd rfl hc
      | cons d rest =>
        rw [compare_metrics_nil_cons]
        exact hwt _ _ _
    | cons m0 ms =>
      rw [compare_metrics_cons]
      exact hwt _ _ _
  · rw [compare_metrics_all_eq]
    exact hwt _ _ _
  · intro fs args o t hoeq hok
    obtain ⟨s2, dl2, _, _, _, _, _, hext, _⟩ := runMain_ok_characterize fs args o t hok
    rw [hoeq, hout] at hext
    exact Bool.false_ne_true hext

/-- Witness: the destination "result.txt" instantiates c6_invalid_out. -/
theorem c6_invalid_out_witness :
    compare_metrics ["metric_CPI"] dlW ["Metric", "a.csv", "b.csv"] "result.txt" =
      Except.error (Fatal.uncaught ("result.txt" ++ " isn\x27t a csv format!")) ∧
    runMain fsW ⟨some "a.csv,b.csv", [], "result.txt", true⟩ ≠
      Except.ok ("result.txt", []) := by
  have h := c6_invalid_out ["metric_CPI"] dlW ["Metric", "a.csv", "b.csv"]
    ["Metric", "a.csv", "b.csv"] "result.txt" (by decide) (Or.inl (by decide))
  exact ⟨h.1, h.2.2 fsW ⟨some "a.csv,b.csv", [], "result.txt", true⟩ "result.txt" [] rfl⟩

/-- C7: a header-CSV input whose header lacks the metrics column makes
csv2json catch the KeyError and raise SystemExit() with code None, which
terminates the process with exit status 0 and no diagnostic — contrary to
the claimed non-zero status with a human-readable message (the other
fatal paths modelled here do exit 1). -/
theorem c7_missing_column_exits_zero :
    csv2json fsC7 "a.csv" = Except.error Fatal.systemExitNone ∧
    Fatal.exitCode Fatal.systemExitNone = 0 ∧
    Fatal.printsDiagnostic Fatal.systemExitNone = false :=
  ⟨rfl, rfl, rfl⟩

/-- C8: if any named input fails its reader (unreadable or malformed),
the whole run errors: loading is all-or-nothing and no output pair is
produced, however valid the other inputs are. -/
theorem c8_all_or_nothing (fs : FS) (args : Args) (s f : String) (e0 : Fatal)
    (hf : args.files = some s)
    (hmem : f ∈ pySplit s ',')
    (hfail : readOne fs args.perfspect f = Except.error e0) :
    ∃ e, runMain fs args = Except.error e := by
  obtain ⟨e, he⟩ := loadAll_error_of_mem fs args.perfspect (pySplit s ',') f e0 hmem hfail
  cases hr : runMain fs args with
  | error e2 => exact ⟨e2, rfl⟩
  | ok pr =>
    obtain ⟨s2, dl2, hf2, hs2, hl2, _, _, _, _⟩ :=
      runMain_ok_characterize fs args pr.1 pr.2 (by rw [hr])
    rw [hf] at hf2
    injection hf2 with hseq
    subst hseq
    rw [he] at hl2
    exact absurd hl2 (by simp)

/-- Witness: the run naming the missing a.csv next to the valid b.csv
instantiates c8_all_or_nothing: it cannot produce an output pair. -/
theorem c8_all_or_nothing_witness :
    runMain fs8 args8 ≠ Except.ok ("out.csv", tW) := by
  obtain ⟨e, he⟩ := c8_all_or_nothing fs8 args8 "a.csv,b.csv" "a.csv"
    (Fatal.systemExitMsg ("a.csv" ++ " not accessible")) rfl (by decide) rfl
  rw [he]
  exact fun hc => Except.noConfusion hc

/-- C9: no minimum input count is enforced beyond the flag being present
and non-empty — a single-file run that completes writes a table whose
every row has exactly two cells (the Metric label column plus one data
column). -/
theorem c9_single_file (fs : FS) (args : Args) (s o : String) (t : List (List Val))
    (hf : args.files = some s) (h1 : (pySplit s ',').length = 1)
    (h : runMain fs args = Except.ok (o, t)) :
    t ≠ [] ∧ ∀ row ∈ t, row.length = 2 := by
  obtain ⟨s2, dl2, hf2, hs2, hl2, hlen, ho, hext, ht⟩ := runMain_ok_characterize fs args o t h
  rw [hf] at hf2
  injection hf2 with hseq
  subst hseq
  constructor
  · rw [ht]
    exact List.cons_ne_nil _ _
  · intro row hrow
    rw [ht] at hrow
    rcases List.mem_cons.mp hrow with hr | hr
    · rw [hr]
      simp only [List.length_map, List.length_cons]
      omega
    · obtain ⟨m, hm, hrow2⟩ := List.mem_map.mp hr
      rw [← hrow2, buildRow_length, hlen, h1]

/-- Witness: the run over the single input fs9 completes and instantiates
c9_single_file. -/
theorem c9_single_file_witness :
    t9 ≠ [] ∧ ([Val.str "metric_CPI", Val.num ⟨15, 1⟩] : List Val).length = 2 := by
  have h := c9_single_file fs9 args9 "single.csv" "out.csv" t9 rfl (by decide) rfl
  exact ⟨h.1, h.2 _ (by decide)⟩

/-- C10: in Header-CSV mode, when several data rows share the same
metrics value the resulting mapping holds the float-coerced avg of the
last such row — the dict-assignment overwrite makes the last occurrence
win, exactly as in the spreadsheet reader. -/
theorem c10_last_wins (fs : FS) (fname : String) (c : CsvFile) (d : PyDict) (e : FSEntry)
    (hfind : fsFind fs fname = some e) (hread : e.readable = true)
    (hdata : e.data = FileData.csvData c)
    (h : csv2json fs fname = Except.ok d) (k : String) :
    pyLookup d k = lastHit (c.rows.filterMap (rowKV c.header)) k := by
  unfold csv2json at h
  split at h
  · rename_i e2 heq
    rw [hfind] at heq
    injection heq with hee
    subst hee
    rw [hread, hdata] at h
    change csvRows c.header c.rows [] = Except.ok d at h
    have hlk := csvRows_lookup c.header c.rows [] d h k
    rw [hlk]
    cases hl : lastHit (c.rows.filterMap (rowKV c.header)) k with
    | some v => rfl
    | none => rfl
  · rename_i heq
    rw [hfind] at heq
    exact Option.noConfusion heq

/-- Witness: the duplicate-key file c10File instantiates c10_last_wins:
the stored value is the float of the last row's avg. -/
theorem c10_last_wins_witness :
    pyLookup [("metric_CPI", Val.num ⟨25, 1⟩)] "metric_CPI" =
      lastHit (c10File.rows.filterMap (rowKV c10File.header)) "metric_CPI" :=
  c10_last_wins fs10 "dup.csv" c10File [("metric_CPI", Val.num ⟨25, 1⟩)]
    ⟨"dup.csv", true, FileData.csvData c10File⟩ rfl rfl rfl rfl "metric_CPI"

end PerfSpectDF
